import Mathlib

/-!
Verification development for the peer-to-peer call signaling core of the
repository: the 1:1 call coordinator (`VideoCall`) and the group call
coordinator (`GroupVideoCall`), shallowly embedded as pure state machines.

Times are modelled in whole seconds (the source computes
`Math.floor((end - start) / 1000)` from millisecond clocks).  Media
acquisition success/failure and transport (RTCPeerConnection) callbacks are
modelled as explicit event parameters.  `setRemoteDescription` /
`addIceCandidate` failures on an out-of-order call reject without mutating
state, per the WebRTC contract the source relies on.
-/

/-- Status values of a call session, from the `callStatus` React state. -/
inductive CallStatus
  | idle
  | calling
  | ringing
  | connected
  | ended
deriving DecidableEq, Repr

/-- Signal types carried on the `call_signals` table. -/
inductive SigType
  | callRequest
  | callAccepted
  | callRejected
  | callEnded
  | offer
  | answer
  | iceCandidate
deriving DecidableEq, Repr

/-- A row of the `call_signals` table, as seen by the coordinators.
`isGroupCall` is the `signal_data.isGroupCall` marker (absent = `false`);
`hasCandidate` records whether `signal_data.candidate` is present. -/
structure Sig where
  senderId : Nat
  calleeId : Nat
  conversationId : Nat
  stype : SigType
  isGroupCall : Bool
  hasCandidate : Bool
deriving DecidableEq, Repr

namespace OneToOne

/-- The single RTCPeerConnection of the 1:1 coordinator
(`peerConnectionRef`), with the signaling-relevant parts of its state. -/
structure PC where
  targetId : Nat
  closed : Bool
  localOffer : Bool
  localAnswer : Bool
  remoteDescSet : Bool
  iceAdded : Nat
deriving DecidableEq, Repr

/-- State of the 1:1 `VideoCall` component: React state, refs, and the
observable effects it produces (published signals, alerts, track stops). -/
structure St where
  conversationId : Nat
  selfId : Nat
  callStatus : CallStatus
  remoteUserId : Option Nat
  pc : Option PC
  localStream : Bool
  mediaAcquisitions : Nat
  stopCount : Nat
  pcCloseCount : Nat
  alerts : Nat
  published : List Sig
  hideScheduled : Bool
  transportConnects : Nat
deriving DecidableEq, Repr

/-- Fresh component state for a conversation and local user. -/
def init (conv self : Nat) : St :=
  { conversationId := conv
    selfId := self
    callStatus := CallStatus.idle
    remoteUserId := none
    pc := none
    localStream := false
    mediaAcquisitions := 0
    stopCount := 0
    pcCloseCount := 0
    alerts := 0
    published := []
    hideScheduled := false
    transportConnects := 0 }

/-- Insert a row into `call_signals` (1:1 payloads carry no group marker). -/
def publish1 (s : St) (callee : Nat) (t : SigType) : St :=
  { s with published :=
      s.published ++ [⟨s.selfId, callee, s.conversationId, t, false, false⟩] }

/-- `initializeMedia`: `getUserMedia` succeeds (`ok = true`) and the stream
is stored in `localStreamRef`, or fails and an alert is shown. -/
def initializeMedia (s : St) (ok : Bool) : St × Bool :=
  if ok then
    ({ s with localStream := true, mediaAcquisitions := s.mediaAcquisitions + 1 }, true)
  else
    ({ s with alerts := s.alerts + 1 }, false)

/-- `createPeerConnection(targetUserId)`: a fresh connection overwrites
`peerConnectionRef` (any previous one is not closed by this function). -/
def createPeerConnection (s : St) (target : Nat) : St :=
  { s with pc := some ⟨target, false, false, false, false, 0⟩ }

/-- `peerConnectionRef.current.close()` when the ref is set. -/
def closePC (s : St) : St :=
  match s.pc with
  | some p => { s with pc := some { p with closed := true }, pcCloseCount := s.pcCloseCount + 1 }
  | none => s

/-- `startCall`: resolve the other member, set `calling`, acquire media,
then publish `call-request`; aborts before publishing on media failure. -/
def startCall (s : St) (otherUser : Option Nat) (mediaOk : Bool) : St :=
  match otherUser with
  | none => { s with alerts := s.alerts + 1 }
  | some other =>
    let s1 := { s with remoteUserId := some other, callStatus := CallStatus.calling }
    let r := initializeMedia s1 mediaOk
    if r.2 then publish1 r.1 other SigType.callRequest else r.1

/-- `acceptCall`: store the caller, set `connected` immediately, acquire
media, create the peer connection, publish `call-accepted` (no offer). -/
def acceptCall (s : St) (callerId : Option Nat) (mediaOk : Bool) : St :=
  match callerId with
  | none => s
  | some c =>
    let s1 := { s with remoteUserId := some c, callStatus := CallStatus.connected }
    let r := initializeMedia s1 mediaOk
    if r.2 then publish1 (createPeerConnection r.1 c) c SigType.callAccepted else r.1

/-- Cleanup effect that runs when `show` flips to `false`: stop the tracks
of the (never-nulled) stream ref, close the peer connection, reset status. -/
def cleanupOnHide (s : St) : St :=
  let s1 := if s.localStream then { s with stopCount := s.stopCount + 1 } else s
  let s2 := closePC s1
  { s2 with callStatus := CallStatus.idle }

/-- `rejectCall`: publish `call-rejected` and hide immediately (`onHide()`
flips `show`, which fires the cleanup effect). -/
def rejectCall (s : St) (callerId : Option Nat) : St :=
  match callerId with
  | none => s
  | some c => cleanupOnHide (publish1 s c SigType.callRejected)

/-- `endCall`: set `ended`, publish `call-ended` when a remote user is
known, stop local tracks, close the peer connection, schedule `onHide`. -/
def endCall (s : St) : St :=
  let s1 := { s with callStatus := CallStatus.ended }
  let s2 :=
    match s1.remoteUserId with
    | some r => publish1 s1 r SigType.callEnded
    | none => s1
  let s3 := if s2.localStream then { s2 with stopCount := s2.stopCount + 1 } else s2
  let s4 := closePC s3
  { s4 with hideScheduled := true }

/-- Body of the realtime subscription callback (the signal already passed
the `callee_id` filter); drops signals of other conversations. -/
def handleSignal (s : St) (g : Sig) : St :=
  if g.conversationId ≠ s.conversationId then s
  else
    match g.stype with
    | SigType.callAccepted =>
      let s1 := { s with callStatus := CallStatus.connected }
      let s2 := createPeerConnection s1 g.senderId
      let s3 := { s2 with pc := s2.pc.map (fun p => { p with localOffer := true }) }
      publish1 s3 g.senderId SigType.offer
    | SigType.callRejected =>
      { s with callStatus := CallStatus.ended, alerts := s.alerts + 1, hideScheduled := true }
    | SigType.callEnded => endCall s
    | SigType.offer =>
      match s.pc with
      | some p =>
        let s1 := { s with pc := some { p with remoteDescSet := true, localAnswer := true } }
        publish1 s1 g.senderId SigType.answer
      | none => s
    | SigType.answer =>
      match s.pc with
      | some p =>
        if p.localOffer && !p.remoteDescSet then
          { s with pc := some { p with remoteDescSet := true } }
        else s
      | none => s
    | SigType.iceCandidate =>
      match s.pc with
      | some p =>
        if p.remoteDescSet then { s with pc := some { p with iceAdded := p.iceAdded + 1 } }
        else s
      | none => s
    | SigType.callRequest => s

/-- Subscription filter `callee_id=eq.${user.id}` plus the handler body. -/
def deliver (s : St) (g : Sig) : St :=
  if g.calleeId = s.selfId then handleSignal s g else s

/-- `onconnectionstatechange` observing `connected`. -/
def onTransportConnected (s : St) : St :=
  { s with callStatus := CallStatus.connected, transportConnects := s.transportConnects + 1 }

/-- Mount-time effect: an outgoing caller auto-starts from `idle`; an
incoming call sets status to `ringing`. -/
def autoStartEffect (s : St) (shw isIncoming : Bool) (otherUser : Option Nat) (mediaOk : Bool) : St :=
  let s1 :=
    if shw = true ∧ isIncoming = false ∧ s.callStatus = CallStatus.idle then
      startCall s otherUser mediaOk
    else s
  if shw = true ∧ isIncoming = true then { s1 with callStatus := CallStatus.ringing } else s1

/-- Events the 1:1 component reacts to. -/
inductive Ev
  | uiStartCall (otherUser : Option Nat) (mediaOk : Bool)
  | uiAccept (callerId : Option Nat) (mediaOk : Bool)
  | uiReject (callerId : Option Nat)
  | uiEnd
  | busSignal (g : Sig)
  | transportConnected
  | transportFailed
  | modalClose
deriving Repr

/-- One event of the 1:1 component. -/
def step (s : St) (e : Ev) : St :=
  match e with
  | Ev.uiStartCall o m => startCall s o m
  | Ev.uiAccept c m => acceptCall s c m
  | Ev.uiReject c => rejectCall s c
  | Ev.uiEnd => endCall s
  | Ev.busSignal g => deliver s g
  | Ev.transportConnected => onTransportConnected s
  | Ev.transportFailed => endCall s
  | Ev.modalClose => cleanupOnHide s

/-- Run a sequence of events. -/
def run (s : St) (es : List Ev) : St := es.foldl step s

end OneToOne

namespace GroupCall

/-- State of the `GroupVideoCall` component: React state (`callStatus`,
`participants`), refs (`peerConnectionsRef` keys as `links`,
`callStartTimeRef`, `localStreamRef`), and observable effects. -/
structure St where
  conversationId : Nat
  selfId : Nat
  callStatus : CallStatus
  participants : List Nat
  links : List Nat
  closedLinks : Nat
  remoteDescSets : Nat
  iceAddedCount : Nat
  offersMade : Nat
  answersMade : Nat
  callStartTime : Option Nat
  localStream : Bool
  mediaAcquisitions : Nat
  stopCount : Nat
  alerts : Nat
  published : List Sig
  messages : List String
  transportConnects : Nat
  hideScheduled : Bool
deriving DecidableEq, Repr

/-- Fresh component state for a conversation and local user. -/
def init (conv self : Nat) : St :=
  { conversationId := conv
    selfId := self
    callStatus := CallStatus.idle
    participants := []
    links := []
    closedLinks := 0
    remoteDescSets := 0
    iceAddedCount := 0
    offersMade := 0
    answersMade := 0
    callStartTime := none
    localStream := false
    mediaAcquisitions := 0
    stopCount := 0
    alerts := 0
    published := []
    messages := []
    transportConnects := 0
    hideScheduled := false }

/-- Insert a group-marked row into `call_signals` (every group publish
writes `isGroupCall: true` into `signal_data`). -/
def publishG (s : St) (callee : Nat) (t : SigType) : St :=
  { s with published :=
      s.published ++ [⟨s.selfId, callee, s.conversationId, t, true, false⟩] }

/-- `onicecandidate` publish: candidate payload, group-marked. -/
def publishIce (s : St) (callee : Nat) : St :=
  { s with published :=
      s.published ++ [⟨s.selfId, callee, s.conversationId, SigType.iceCandidate, true, true⟩] }

/-- Publish the same signal type individually to a list of targets. -/
def publishAll (s : St) (targets : List Nat) (t : SigType) : St :=
  targets.foldl (fun acc m => publishG acc m t) s

/-- Key insertion for `peerConnectionsRef.current.set`: the key set gains
`x` when absent (a present key keeps its position, its value replaced). -/
def insertLink (l : List Nat) (x : Nat) : List Nat :=
  if x ∈ l then l else l ++ [x]

/-- `initializeMedia` for the group component. -/
def initializeMedia (s : St) (ok : Bool) : St × Bool :=
  if ok then
    ({ s with localStream := true, mediaAcquisitions := s.mediaAcquisitions + 1 }, true)
  else
    ({ s with alerts := s.alerts + 1 }, false)

/-- `createPeerConnection(targetUserId)`: registers the connection in the
map (an existing entry is replaced without being closed). -/
def createPeerConnection (s : St) (target : Nat) : St :=
  { s with links := insertLink s.links target }

/-- Format `${minutes} phút ${seconds} giây` or `${seconds} giây`. -/
def durationText (d : Nat) : String :=
  let minutes := d / 60
  let seconds := d % 60
  if minutes > 0 then
    toString minutes ++ " phút " ++ toString seconds ++ " giây"
  else
    toString seconds ++ " giây"

/-- `startGroupCall`: set `calling`, acquire media (abort with alert on
failure), load members, publish `call-request` to each. -/
def startGroupCall (s : St) (members : List Nat) (mediaOk : Bool) : St :=
  let s1 := { s with callStatus := CallStatus.calling }
  let r := initializeMedia s1 mediaOk
  if r.2 then
    let s2 := { r.1 with participants := members }
    publishAll s2 members SigType.callRequest
  else r.1

/-- `acceptCall`: set `connected` and record the call start time at once,
acquire media, load members, link the caller, publish `call-accepted`. -/
def acceptCall (s : St) (callerId : Option Nat) (members : List Nat) (mediaOk : Bool) (now : Nat) : St :=
  match callerId with
  | none => s
  | some c =>
    let s1 := { s with callStatus := CallStatus.connected, callStartTime := some now }
    let r := initializeMedia s1 mediaOk
    if r.2 then
      let s2 := { r.1 with participants := members }
      publishG (createPeerConnection s2 c) c SigType.callAccepted
    else r.1

/-- `rejectCall`: publish `call-rejected` and hide (no cleanup effect runs
on hide for the group component; cleanup is unmount-only). -/
def rejectCall (s : St) (callerId : Option Nat) : St :=
  match callerId with
  | none => s
  | some c => { publishG s c SigType.callRejected with hideScheduled := true }

/-- `endCall`: set `ended`, publish `call-ended` to every key of the peer
connection map, log a duration message when a start time was recorded,
stop local tracks, close and clear all connections, schedule `onHide`. -/
def endCall (s : St) (now : Nat) : St :=
  let s1 := { s with callStatus := CallStatus.ended }
  let s2 := publishAll s1 s1.links SigType.callEnded
  let s3 :=
    match s2.callStartTime with
    | some t0 =>
      { s2 with messages := s2.messages ++ ["📹 Cuộc gọi nhóm - " ++ durationText (now - t0)] }
    | none => s2
  let s4 := if s3.localStream then { s3 with stopCount := s3.stopCount + 1 } else s3
  let s5 := { s4 with closedLinks := s4.closedLinks + s4.links.length, links := [] }
  { s5 with hideScheduled := true }

/-- Body of the group subscription callback: drops other conversations and
any signal without the `isGroupCall` marker, then dispatches on type. -/
def handleSignal (s : St) (g : Sig) (now : Nat) : St :=
  if g.conversationId ≠ s.conversationId then s
  else if g.isGroupCall = false then s
  else
    match g.stype with
    | SigType.callAccepted =>
      let s1 := createPeerConnection s g.senderId
      let s2 := { s1 with offersMade := s1.offersMade + 1 }
      publishG s2 g.senderId SigType.offer
    | SigType.offer =>
      let s1 := createPeerConnection s g.senderId
      let s2 := { s1 with remoteDescSets := s1.remoteDescSets + 1, answersMade := s1.answersMade + 1 }
      publishG s2 g.senderId SigType.answer
    | SigType.answer =>
      if g.senderId ∈ s.links then { s with remoteDescSets := s.remoteDescSets + 1 } else s
    | SigType.iceCandidate =>
      if g.senderId ∈ s.links ∧ g.hasCandidate = true then
        { s with iceAddedCount := s.iceAddedCount + 1 }
      else s
    | SigType.callEnded =>
      let s1 :=
        if g.senderId ∈ s.links then
          { s with closedLinks := s.closedLinks + 1,
                   links := s.links.filter (fun x => x != g.senderId) }
        else s
      let s2 := { s1 with participants := s1.participants.filter (fun x => x != g.senderId) }
      if s2.links.isEmpty then endCall s2 now else s2
    | SigType.callRequest => s
    | SigType.callRejected => s

/-- Subscription filter `callee_id=eq.${user.id}` plus the handler body. -/
def deliver (s : St) (g : Sig) (now : Nat) : St :=
  if g.calleeId = s.selfId then handleSignal s g now else s

/-- `onconnectionstatechange` observing `connected` on some link: force
`connected` and record the start time if not yet set. -/
def onTransportConnected (s : St) (now : Nat) : St :=
  let s1 := { s with callStatus := CallStatus.connected,
                     transportConnects := s.transportConnects + 1 }
  match s1.callStartTime with
  | none => { s1 with callStartTime := some now }
  | some _ => s1

/-- Unmount cleanup: stop the local tracks and close every connection
still in the map (the map is not cleared). -/
def unmountCleanup (s : St) : St :=
  let s1 := if s.localStream then { s with stopCount := s.stopCount + 1 } else s
  { s1 with closedLinks := s1.closedLinks + s1.links.length }

/-- Mount-time effect: only an outgoing caller auto-starts; there is no
branch setting `ringing` for an incoming group call. -/
def autoStartEffect (s : St) (shw isIncoming : Bool) (members : List Nat) (mediaOk : Bool) : St :=
  if shw = true ∧ isIncoming = false ∧ s.callStatus = CallStatus.idle then
    startGroupCall s members mediaOk
  else s

/-- UI gate for the incoming-call accept/reject screen
(`isIncoming && callStatus === 'idle'`). -/
def showsIncomingUI (s : St) (isIncoming : Bool) : Bool :=
  isIncoming && decide (s.callStatus = CallStatus.idle)

/-- Events the group component reacts to. -/
inductive Ev
  | uiStart (members : List Nat) (mediaOk : Bool)
  | uiAccept (callerId : Option Nat) (members : List Nat) (mediaOk : Bool) (now : Nat)
  | uiReject (callerId : Option Nat)
  | uiEnd (now : Nat)
  | busSignal (g : Sig) (now : Nat)
  | transportConnected (p : Nat) (now : Nat)
  | localIce (target : Nat)
  | unmount
deriving Repr

/-- One event of the group component. -/
def step (s : St) (e : Ev) : St :=
  match e with
  | Ev.uiStart ms m => startGroupCall s ms m
  | Ev.uiAccept c ms m now => acceptCall s c ms m now
  | Ev.uiReject c => rejectCall s c
  | Ev.uiEnd now => endCall s now
  | Ev.busSignal g now => deliver s g now
  | Ev.transportConnected _ now => onTransportConnected s now
  | Ev.localIce t => publishIce s t
  | Ev.unmount => unmountCleanup s

/-- Run a sequence of events. -/
def run (s : St) (es : List Ev) : St := es.foldl step s

end GroupCall

/-- Every signal of the list carries the group-call marker. -/
def GroupCall.allMarked (l : List Sig) : Prop := ∀ g ∈ l, g.isGroupCall = true

/-- A connected 4-party group session of user 2 with links to 10, 11, 12. -/
def abcGroupState : GroupCall.St :=
  { GroupCall.init 1 2 with
      callStatus := CallStatus.connected
      participants := [10, 11, 12]
      links := [10, 11, 12]
      localStream := true
      callStartTime := some 0 }

/-- A connected group session of user 2 whose only remaining link is 9. -/
def lastPeerState : GroupCall.St :=
  { GroupCall.init 1 2 with
      callStatus := CallStatus.connected
      participants := [9]
      links := [9]
      localStream := true
      callStartTime := some 3 }

/-- Folding `publishG` over a target list appends one group-marked signal
per target and changes nothing else. -/
theorem GroupCall.publishAll_spec (ts : List Nat) (s : GroupCall.St) (t : SigType) :
    GroupCall.publishAll s ts t
      = { s with published :=
            s.published ++ ts.map (fun p => (⟨s.selfId, p, s.conversationId, t, true, false⟩ : Sig)) } := by
  induction ts generalizing s with
  | nil => simp [GroupCall.publishAll]
  | cons a l ih =>
    show GroupCall.publishAll (GroupCall.publishG s a t) l t = _
    rw [ih]
    simp [GroupCall.publishG]

/-- C1 counterexample: the group coordinator's `acceptCall` sets `status`
to `connected` although no transport connection ever reached "connected",
and in the 1:1 coordinator a `call-accepted` signal arriving after
`endCall` moves `status` from `ended` back to `connected`, so `ended` is
not absorbing. -/
theorem c1_counterexample :
    ((GroupCall.acceptCall (GroupCall.init 1 2) (some 7) [7] true 0).callStatus = CallStatus.connected
      ∧ (GroupCall.acceptCall (GroupCall.init 1 2) (some 7) [7] true 0).transportConnects = 0)
    ∧ ((OneToOne.run (OneToOne.init 1 2)
          [OneToOne.Ev.uiStartCall (some 7) true, OneToOne.Ev.uiEnd]).callStatus = CallStatus.ended
      ∧ (OneToOne.run (OneToOne.init 1 2)
          [OneToOne.Ev.uiStartCall (some 7) true, OneToOne.Ev.uiEnd,
           OneToOne.Ev.busSignal ⟨7, 2, 1, SigType.callAccepted, false, false⟩]).callStatus
        = CallStatus.connected) := by decide

/-- C1 (amended): `status` becomes `connected` not only after a transport
connect: the accept paths of both coordinators and the 1:1 caller's
`call-accepted` handler set `connected` directly, before any transport
event (the transport `connected` callback also forces `connected`). -/
theorem c1_amended (sg : GroupCall.St) (s1 : OneToOne.St) (c now : Nat)
    (ms : List Nat) (ok : Bool) (g : Sig)
    (hc : g.calleeId = s1.selfId) (hv : g.conversationId = s1.conversationId)
    (ht : g.stype = SigType.callAccepted) :
    (GroupCall.acceptCall sg (some c) ms ok now).callStatus = CallStatus.connected
    ∧ (GroupCall.acceptCall sg (some c) ms ok now).transportConnects = sg.transportConnects
    ∧ (OneToOne.acceptCall s1 (some c) ok).callStatus = CallStatus.connected
    ∧ (OneToOne.acceptCall s1 (some c) ok).transportConnects = s1.transportConnects
    ∧ (OneToOne.deliver s1 g).callStatus = CallStatus.connected
    ∧ (OneToOne.onTransportConnected s1).callStatus = CallStatus.connected
    ∧ (GroupCall.onTransportConnected sg now).callStatus = CallStatus.connected := by
  obtain ⟨gs, gc, gv, gt, gm, gh⟩ := g
  simp only [Sig.calleeId] at hc
  simp only [Sig.conversationId] at hv
  simp only [Sig.stype] at ht
  subst hc hv ht
  refine ⟨?_, ?_, ?_, ?_, ?_, ?_, ?_⟩
  · cases ok <;>
      simp [GroupCall.acceptCall, GroupCall.initializeMedia, GroupCall.publishG,
        GroupCall.createPeerConnection]
  · cases ok <;>
      simp [GroupCall.acceptCall, GroupCall.initializeMedia, GroupCall.publishG,
        GroupCall.createPeerConnection]
  · cases ok <;>
      simp [OneToOne.acceptCall, OneToOne.initializeMedia, OneToOne.publish1,
        OneToOne.createPeerConnection]
  · cases ok <;>
      simp [OneToOne.acceptCall, OneToOne.initializeMedia, OneToOne.publish1,
        OneToOne.createPeerConnection]
  · simp [OneToOne.deliver, OneToOne.handleSignal, OneToOne.publish1,
      OneToOne.createPeerConnection]
  · simp [OneToOne.onTransportConnected]
  · cases h : sg.callStartTime <;> simp [GroupCall.onTransportConnected, h]

/-- C1 amended witness at a concrete incoming group call and a concrete
1:1 caller receiving `call-accepted`. -/
theorem c1_amended_witness :
    (GroupCall.acceptCall (GroupCall.init 1 2) (some 7) [7, 8] true 5).callStatus
      = CallStatus.connected
    ∧ (OneToOne.deliver (OneToOne.init 1 2)
        ⟨7, 2, 1, SigType.callAccepted, false, false⟩).callStatus = CallStatus.connected :=
  ⟨(c1_amended (GroupCall.init 1 2) (OneToOne.init 1 2) 7 5 [7, 8] true
      ⟨7, 2, 1, SigType.callAccepted, false, false⟩ rfl rfl rfl).1,
   (c1_amended (GroupCall.init 1 2) (OneToOne.init 1 2) 7 5 [7, 8] true
      ⟨7, 2, 1, SigType.callAccepted, false, false⟩ rfl rfl rfl).2.2.2.2.1⟩

/-- C2: in a 1:1 call the acceptor's accept path creates its peer link and
publishes only `call-accepted`, generating no offer, while the caller, on
receiving `call-accepted`, creates its peer link, generates an offer (set
as local description) and publishes an `offer` signal to the acceptor. -/
theorem c2_offer_asymmetry (s : OneToOne.St) (c : Nat) (g : Sig)
    (hc : g.calleeId = s.selfId) (hv : g.conversationId = s.conversationId)
    (ht : g.stype = SigType.callAccepted) :
    ((OneToOne.acceptCall s (some c) true).published
        = s.published ++ [⟨s.selfId, c, s.conversationId, SigType.callAccepted, false, false⟩]
      ∧ (OneToOne.acceptCall s (some c) true).pc = some ⟨c, false, false, false, false, 0⟩)
    ∧ ((OneToOne.deliver s g).published
        = s.published ++ [⟨s.selfId, g.senderId, s.conversationId, SigType.offer, false, false⟩]
      ∧ (OneToOne.deliver s g).pc = some ⟨g.senderId, false, true, false, false, 0⟩) := by
  obtain ⟨gs, gc, gv, gt, gm, gh⟩ := g
  simp only [Sig.calleeId] at hc
  simp only [Sig.conversationId] at hv
  simp only [Sig.stype] at ht
  subst hc hv ht
  refine ⟨⟨?_, ?_⟩, ?_, ?_⟩ <;>
    simp [OneToOne.acceptCall, OneToOne.deliver, OneToOne.handleSignal,
      OneToOne.initializeMedia, OneToOne.publish1, OneToOne.createPeerConnection]

/-- C2 witness at a concrete acceptor state and a concrete caller state. -/
theorem c2_offer_asymmetry_witness :
    (OneToOne.acceptCall (OneToOne.init 1 2) (some 7) true).pc
      = some ⟨7, false, false, false, false, 0⟩
    ∧ (OneToOne.deliver (OneToOne.init 1 2) ⟨7, 2, 1, SigType.callAccepted, false, false⟩).published
      = [⟨2, 7, 1, SigType.offer, false, false⟩] :=
  ⟨(c2_offer_asymmetry (OneToOne.init 1 2) 7
      ⟨7, 2, 1, SigType.callAccepted, false, false⟩ rfl rfl rfl).1.2,
   (c2_offer_asymmetry (OneToOne.init 1 2) 7
      ⟨7, 2, 1, SigType.callAccepted, false, false⟩ rfl rfl rfl).2.1⟩

/-- Structure equation for the group `endCall`. -/
theorem GroupCall.endCall_spec (x : GroupCall.St) (now : Nat) :
    GroupCall.endCall x now
      = { x with
            callStatus := CallStatus.ended
            published := x.published ++ x.links.map
              (fun p => (⟨x.selfId, p, x.conversationId, SigType.callEnded, true, false⟩ : Sig))
            messages := x.messages ++ (match x.callStartTime with
              | some t0 => ["📹 Cuộc gọi nhóm - " ++ GroupCall.durationText (now - t0)]
              | none => [])
            stopCount := x.stopCount + (if x.localStream then 1 else 0)
            closedLinks := x.closedLinks + x.links.length
            links := []
            hideScheduled := true } := by
  cases hcs : x.callStartTime <;> cases hls : x.localStream <;>
    simp [GroupCall.endCall, GroupCall.publishAll_spec, hcs, hls]

/-- Structure equation for the group unmount cleanup. -/
theorem GroupCall.unmountCleanup_spec (x : GroupCall.St) :
    GroupCall.unmountCleanup x
      = { x with
            stopCount := x.stopCount + (if x.localStream then 1 else 0)
            closedLinks := x.closedLinks + x.links.length } := by
  cases hls : x.localStream <;> simp [GroupCall.unmountCleanup, hls]

/-- Structure equation for the 1:1 `endCall`. -/
theorem OneToOne.endCall_eqn (x : OneToOne.St) :
    OneToOne.endCall x
      = { x with
            callStatus := CallStatus.ended
            published := x.published ++ (match x.remoteUserId with
              | some r => [⟨x.selfId, r, x.conversationId, SigType.callEnded, false, false⟩]
              | none => [])
            stopCount := x.stopCount + (if x.localStream then 1 else 0)
            pc := x.pc.map (fun p => { p with closed := true })
            pcCloseCount := x.pcCloseCount + (match x.pc with | some _ => 1 | none => 0)
            hideScheduled := true } := by
  cases hr : x.remoteUserId <;> cases hp : x.pc <;> cases hls : x.localStream <;>
    simp [OneToOne.endCall, OneToOne.publish1, OneToOne.closePC, hr, hp, hls]

/-- Structure equation for the 1:1 hide cleanup effect. -/
theorem OneToOne.cleanupOnHide_spec (x : OneToOne.St) :
    OneToOne.cleanupOnHide x
      = { x with
            callStatus := CallStatus.idle
            stopCount := x.stopCount + (if x.localStream then 1 else 0)
            pc := x.pc.map (fun p => { p with closed := true })
            pcCloseCount := x.pcCloseCount + (match x.pc with | some _ => 1 | none => 0) } := by
  cases hp : x.pc <;> cases hls : x.localStream <;>
    simp [OneToOne.cleanupOnHide, OneToOne.closePC, hp, hls]

/-- C3 counterexample: an acceptor joins at time 0, the first transport
connect happens at time 10, the call ends at time 70.  The logged duration
is 70 seconds (measured from the accept), not the 60 seconds elapsed since
the first transport-connected event; and the known participant 11, who
holds no Peer Link, receives no `call-ended` signal at all. -/
theorem c3_counterexample :
    (GroupCall.run (GroupCall.init 1 2)
        [GroupCall.Ev.uiAccept (some 10) [10, 11] true 0,
         GroupCall.Ev.transportConnected 10 10,
         GroupCall.Ev.uiEnd 70]).transportConnects = 1
    ∧ (GroupCall.run (GroupCall.init 1 2)
        [GroupCall.Ev.uiAccept (some 10) [10, 11] true 0,
         GroupCall.Ev.transportConnected 10 10,
         GroupCall.Ev.uiEnd 70]).callStartTime = some 0
    ∧ (GroupCall.run (GroupCall.init 1 2)
        [GroupCall.Ev.uiAccept (some 10) [10, 11] true 0,
         GroupCall.Ev.transportConnected 10 10,
         GroupCall.Ev.uiEnd 70]).messages = ["📹 Cuộc gọi nhóm - 1 phút 10 giây"]
    ∧ (GroupCall.run (GroupCall.init 1 2)
        [GroupCall.Ev.uiAccept (some 10) [10, 11] true 0,
         GroupCall.Ev.transportConnected 10 10,
         GroupCall.Ev.uiEnd 70]).participants = [10, 11]
    ∧ (∀ g ∈ (GroupCall.run (GroupCall.init 1 2)
        [GroupCall.Ev.uiAccept (some 10) [10, 11] true 0,
         GroupCall.Ev.transportConnected 10 10,
         GroupCall.Ev.uiEnd 70]).published, g.calleeId ≠ 11) := by decide

/-- C3 (amended): local `endCall` publishes `call-ended` to exactly the
participants holding a Peer Link (a known participant without a link gets
nothing), closes all Peer Links, releases local media, and appends a
duration chat-log entry iff a call start time was recorded — the start
time is the accept time for an acceptor, or the first transport-connected
time otherwise — formatted minutes+seconds when at least one minute,
seconds-only under one minute. -/
theorem c3_amended (s : GroupCall.St) (now : Nat) :
    (GroupCall.endCall s now).published
      = s.published ++ s.links.map
          (fun p => (⟨s.selfId, p, s.conversationId, SigType.callEnded, true, false⟩ : Sig))
    ∧ (GroupCall.endCall s now).messages
      = s.messages ++ (match s.callStartTime with
          | some t0 => ["📹 Cuộc gọi nhóm - " ++ GroupCall.durationText (now - t0)]
          | none => [])
    ∧ (GroupCall.endCall s now).links = []
    ∧ (GroupCall.endCall s now).closedLinks = s.closedLinks + s.links.length
    ∧ (GroupCall.endCall s now).stopCount = s.stopCount + (if s.localStream then 1 else 0)
    ∧ (GroupCall.endCall s now).callStatus = CallStatus.ended
    ∧ (∀ (c t : Nat) (ms : List Nat) (ok : Bool),
        (GroupCall.acceptCall s (some c) ms ok t).callStartTime = some t)
    ∧ (s.callStartTime = none →
        ∀ t : Nat, (GroupCall.onTransportConnected s t).callStartTime = some t)
    ∧ (∀ d : Nat, 60 ≤ d →
        GroupCall.durationText d = toString (d / 60) ++ " phút " ++ toString (d % 60) ++ " giây")
    ∧ (∀ d : Nat, d < 60 → GroupCall.durationText d = toString d ++ " giây") := by
  refine ⟨?_, ?_, ?_, ?_, ?_, ?_, ?_, ?_, ?_, ?_⟩
  · rw [GroupCall.endCall_spec]
  · rw [GroupCall.endCall_spec]
  · rw [GroupCall.endCall_spec]
  · rw [GroupCall.endCall_spec]
  · rw [GroupCall.endCall_spec]
  · rw [GroupCall.endCall_spec]
  · intro c t ms ok
    cases ok <;>
      simp [GroupCall.acceptCall, GroupCall.initializeMedia, GroupCall.publishG,
        GroupCall.createPeerConnection]
  · intro h t
    simp [GroupCall.onTransportConnected, h]
  · intro d hd
    have h1 : 0 < d / 60 := Nat.div_pos hd (by norm_num)
    simp only [GroupCall.durationText]
    rw [if_pos h1]
  · intro d hd
    have h0 : d / 60 = 0 := Nat.div_eq_of_lt hd
    have h2 : d % 60 = d := Nat.mod_eq_of_lt hd
    simp only [GroupCall.durationText]
    rw [if_neg (by simp [h0]), h2]

/-- C3 amended witness: the acceptor session of the counterexample run. -/
theorem c3_amended_witness :
    GroupCall.durationText 70 = "1 phút 10 giây"
    ∧ GroupCall.durationText 59 = "59 giây"
    ∧ (GroupCall.acceptCall (GroupCall.init 1 2) (some 10) [10, 11] true 0).callStartTime = some 0 :=
  ⟨((c3_amended (GroupCall.init 1 2) 70).2.2.2.2.2.2.2.2.1 70 (by norm_num)).trans (by decide),
   ((c3_amended (GroupCall.init 1 2) 70).2.2.2.2.2.2.2.2.2 59 (by norm_num)).trans (by decide),
   (c3_amended (GroupCall.init 1 2) 70).2.2.2.2.2.2.1 10 0 [10, 11] true⟩

/-- C4 counterexample: on the local-hangup path of a connected 1:1 call
the tracks of the single acquired stream are stopped twice — once by
`endCall` and once more by the cleanup effect when the modal closes,
because the stream ref is never nulled. -/
theorem c4_counterexample :
    (OneToOne.run (OneToOne.init 1 2)
        [OneToOne.Ev.uiAccept (some 7) true, OneToOne.Ev.uiEnd,
         OneToOne.Ev.modalClose]).mediaAcquisitions = 1
    ∧ (OneToOne.run (OneToOne.init 1 2)
        [OneToOne.Ev.uiAccept (some 7) true, OneToOne.Ev.uiEnd,
         OneToOne.Ev.modalClose]).stopCount = 2 := by decide

/-- C4 (amended): every termination path — local hangup, remote hangup
(which runs the same `endCall`), and modal close / unmount — stops the
captured tracks when media was acquired, so they are never left running;
but release is not exactly-once: after a hangup, the 1:1 modal-close
cleanup and the group unmount cleanup stop the already-stopped tracks a
second time (harmless, as stopping a stopped track is a no-op). -/
theorem c4_amended (s : OneToOne.St) (g : GroupCall.St) (now r : Nat)
    (hs : s.localStream = true) (hg : g.localStream = true) :
    (OneToOne.endCall s).stopCount = s.stopCount + 1
    ∧ (OneToOne.cleanupOnHide s).stopCount = s.stopCount + 1
    ∧ (OneToOne.cleanupOnHide (OneToOne.endCall s)).stopCount = s.stopCount + 2
    ∧ OneToOne.handleSignal s ⟨r, s.selfId, s.conversationId, SigType.callEnded, false, false⟩
      = OneToOne.endCall s
    ∧ (GroupCall.endCall g now).stopCount = g.stopCount + 1
    ∧ (GroupCall.unmountCleanup (GroupCall.endCall g now)).stopCount = g.stopCount + 2 := by
  refine ⟨?_, ?_, ?_, ?_, ?_, ?_⟩
  · rw [OneToOne.endCall_eqn]; simp [hs]
  · rw [OneToOne.cleanupOnHide_spec]; simp [hs]
  · rw [OneToOne.cleanupOnHide_spec, OneToOne.endCall_eqn]; simp [hs]
  · simp [OneToOne.handleSignal]
  · rw [GroupCall.endCall_spec]; simp [hg]
  · rw [GroupCall.unmountCleanup_spec, GroupCall.endCall_spec]; simp [hg]

/-- C4 amended witness at a concrete connected 1:1 state and a concrete
connected group state, both with acquired media. -/
theorem c4_amended_witness :
    (OneToOne.cleanupOnHide (OneToOne.endCall
        (OneToOne.acceptCall (OneToOne.init 1 2) (some 7) true))).stopCount
      = (OneToOne.acceptCall (OneToOne.init 1 2) (some 7) true).stopCount + 2
    ∧ (GroupCall.unmountCleanup (GroupCall.endCall
        (GroupCall.acceptCall (GroupCall.init 1 2) (some 7) [7] true 0) 9)).stopCount
      = (GroupCall.acceptCall (GroupCall.init 1 2) (some 7) [7] true 0).stopCount + 2 :=
  ⟨(c4_amended (OneToOne.acceptCall (OneToOne.init 1 2) (some 7) true)
      (GroupCall.acceptCall (GroupCall.init 1 2) (some 7) [7] true 0) 9 7
      (by decide) (by decide)).2.2.1,
   (c4_amended (OneToOne.acceptCall (OneToOne.init 1 2) (some 7) true)
      (GroupCall.acceptCall (GroupCall.init 1 2) (some 7) [7] true 0) 9 7
      (by decide) (by decide)).2.2.2.2.2⟩

/-- C5 counterexample: an acceptor in a three-member group holds a Peer
Link only to the caller (10), while 11 is a known participant without a
link.  When 10 sends `call-ended` the Peer Link map becomes empty and the
whole session transitions to `ended` although the resulting participant
set is [11], which is not empty. -/
theorem c5_counterexample :
    (GroupCall.run (GroupCall.init 1 2)
        [GroupCall.Ev.uiAccept (some 10) [10, 11] true 0,
         GroupCall.Ev.busSignal ⟨10, 2, 1, SigType.callEnded, true, false⟩ 50]).callStatus
      = CallStatus.ended
    ∧ (GroupCall.run (GroupCall.init 1 2)
        [GroupCall.Ev.uiAccept (some 10) [10, 11] true 0,
         GroupCall.Ev.busSignal ⟨10, 2, 1, SigType.callEnded, true, false⟩ 50]).participants
      = [11] := by decide

/-- C5 (amended): on `call-ended` from P the coordinator closes and
removes exactly P's Peer Link and P's participant entry; the whole session
transitions to `ended` (releasing local media) exactly when the resulting
Peer Link map is empty — the participant list may still be nonempty.  With
links to A and C still alive, B's `call-ended` leaves the session status
untouched with exactly the links to A and C remaining. -/
theorem c5_amended (s : GroupCall.St) (g : Sig) (now : Nat)
    (hc : g.calleeId = s.selfId) (hv : g.conversationId = s.conversationId)
    (hm : g.isGroupCall = true) (ht : g.stype = SigType.callEnded) :
    (s.links.filter (fun x => x != g.senderId) ≠ [] →
      (GroupCall.deliver s g now).callStatus = s.callStatus
      ∧ (GroupCall.deliver s g now).links = s.links.filter (fun x => x != g.senderId)
      ∧ (GroupCall.deliver s g now).participants = s.participants.filter (fun x => x != g.senderId)
      ∧ (GroupCall.deliver s g now).stopCount = s.stopCount
      ∧ (GroupCall.deliver s g now).published = s.published
      ∧ (GroupCall.deliver s g now).closedLinks
          = s.closedLinks + (if g.senderId ∈ s.links then 1 else 0))
    ∧ (s.links.filter (fun x => x != g.senderId) = [] →
      (GroupCall.deliver s g now).callStatus = CallStatus.ended
      ∧ (GroupCall.deliver s g now).links = []
      ∧ (GroupCall.deliver s g now).participants = s.participants.filter (fun x => x != g.senderId)
      ∧ (GroupCall.deliver s g now).stopCount = s.stopCount + (if s.localStream then 1 else 0)) := by
  obtain ⟨gs, gc, gv, gt, gm, gh⟩ := g
  simp only [Sig.calleeId] at hc
  simp only [Sig.conversationId] at hv
  simp only [Sig.isGroupCall] at hm
  simp only [Sig.stype] at ht
  subst hc hv hm ht
  have hred : GroupCall.deliver s ⟨gs, s.selfId, s.conversationId, SigType.callEnded, true, gh⟩ now
      = (let s1 := if gs ∈ s.links then
            { s with closedLinks := s.closedLinks + 1,
                     links := s.links.filter (fun x => x != gs) }
          else s
         let s2 := { s1 with participants := s1.participants.filter (fun x => x != gs) }
         if s2.links.isEmpty then GroupCall.endCall s2 now else s2) := by
    simp [GroupCall.deliver, GroupCall.handleSignal]
  rw [hred]
  by_cases hmem : gs ∈ s.links
  · simp only [hmem, if_true]
    constructor
    · intro hne
      have hF : (s.links.filter (fun x => x != gs)).isEmpty = false := by
        cases hq : s.links.filter (fun x => x != gs) with
        | nil => exact absurd hq hne
        | cons a l => rfl
      simp [hF, hmem]
    · intro heq
      simp only [heq]
      rw [GroupCall.endCall_spec]
      simp [heq]
  · have hfe : s.links.filter (fun x => x != gs) = s.links :=
      List.filter_eq_self.mpr (fun x hx => bne_iff_ne.mpr (fun h => hmem (h ▸ hx)))
    simp only [hmem, if_false]
    constructor
    · intro hne
      rw [hfe] at hne
      have hF : s.links.isEmpty = false := by
        cases hq : s.links with
        | nil => exact absurd hq hne
        | cons a l => rfl
      simp [hF, hfe, hmem]
    · intro heq
      rw [hfe] at heq
      rw [GroupCall.endCall_spec]
      simp [heq, hfe]

/-- C5 amended witness: the {A, B, C} scenario — user 2 in a four-party
call with links to 10, 11, 12; participant 11 hangs up and the session
stays `connected` with exactly the two links [10, 12]. -/
theorem c5_amended_witness :
    (GroupCall.deliver abcGroupState ⟨11, 2, 1, SigType.callEnded, true, false⟩ 50).callStatus
      = CallStatus.connected
    ∧ (GroupCall.deliver abcGroupState ⟨11, 2, 1, SigType.callEnded, true, false⟩ 50).links
      = [10, 12] := by
  have h := (c5_amended abcGroupState ⟨11, 2, 1, SigType.callEnded, true, false⟩ 50
    rfl rfl rfl rfl).1 (by decide)
  exact ⟨h.1.trans (by decide), h.2.1.trans (by decide)⟩

/-- Any signal in the published list after the group handler ran was
already published before, or carries the group-call marker. -/
theorem GroupCall.handleSignal_marker (s : GroupCall.St) (q : Sig) (now : Nat) (g : Sig)
    (hg : g ∈ (GroupCall.handleSignal s q now).published) :
    g ∈ s.published ∨ g.isGroupCall = true := by
  unfold GroupCall.handleSignal at hg
  split at hg
  · exact Or.inl hg
  · split at hg
    · exact Or.inl hg
    · split at hg
      · simp [GroupCall.publishG, GroupCall.createPeerConnection] at hg
        rcases hg with h | rfl
        · exact Or.inl h
        · exact Or.inr rfl
      · simp [GroupCall.publishG, GroupCall.createPeerConnection] at hg
        rcases hg with h | rfl
        · exact Or.inl h
        · exact Or.inr rfl
      · split at hg
        · exact Or.inl hg
        · exact Or.inl hg
      · split at hg
        · exact Or.inl hg
        · exact Or.inl hg
      · split at hg
        · dsimp only at hg
          split at hg
          · rw [GroupCall.endCall_spec] at hg
            simp at hg
            rcases hg with h | ⟨p, _, rfl⟩
            · exact Or.inl h
            · exact Or.inr rfl
          · exact Or.inl hg
        · dsimp only at hg
          split at hg
          · rw [GroupCall.endCall_spec] at hg
            simp at hg
            rcases hg with h | ⟨p, _, rfl⟩
            · exact Or.inl h
            · exact Or.inr rfl
          · exact Or.inl hg
      · exact Or.inl hg
      · exact Or.inl hg

/-- Any signal in the published list after one group event was already
published before, or carries the group-call marker. -/
theorem GroupCall.step_marker (s : GroupCall.St) (e : GroupCall.Ev) (g : Sig)
    (hg : g ∈ (GroupCall.step s e).published) : g ∈ s.published ∨ g.isGroupCall = true := by
  cases e with
  | uiStart ms m =>
    cases m
    · simp [GroupCall.step, GroupCall.startGroupCall, GroupCall.initializeMedia] at hg
      exact Or.inl hg
    · simp [GroupCall.step, GroupCall.startGroupCall, GroupCall.initializeMedia,
        GroupCall.publishAll_spec] at hg
      rcases hg with h | ⟨p, _, rfl⟩
      · exact Or.inl h
      · exact Or.inr rfl
  | uiAccept c ms m now =>
    cases c with
    | none => exact Or.inl hg
    | some cc =>
      cases m
      · simp [GroupCall.step, GroupCall.acceptCall, GroupCall.initializeMedia] at hg
        exact Or.inl hg
      · simp [GroupCall.step, GroupCall.acceptCall, GroupCall.initializeMedia,
          GroupCall.publishG, GroupCall.createPeerConnection] at hg
        rcases hg with h | rfl
        · exact Or.inl h
        · exact Or.inr rfl
  | uiReject c =>
    cases c with
    | none => exact Or.inl hg
    | some cc =>
      simp [GroupCall.step, GroupCall.rejectCall, GroupCall.publishG] at hg
      rcases hg with h | rfl
      · exact Or.inl h
      · exact Or.inr rfl
  | uiEnd now =>
    simp only [GroupCall.step] at hg
    rw [GroupCall.endCall_spec] at hg
    simp at hg
    rcases hg with h | ⟨p, _, rfl⟩
    · exact Or.inl h
    · exact Or.inr rfl
  | busSignal q now =>
    simp only [GroupCall.step, GroupCall.deliver] at hg
    split at hg
    · exact GroupCall.handleSignal_marker s q now g hg
    · exact Or.inl hg
  | transportConnected p now =>
    cases hcs : s.callStartTime <;>
      simp [GroupCall.step, GroupCall.onTransportConnected, hcs] at hg <;>
      exact Or.inl hg
  | localIce t =>
    simp [GroupCall.step, GroupCall.publishIce] at hg
    rcases hg with h | rfl
    · exact Or.inl h
    · exact Or.inr rfl
  | unmount =>
    cases hls : s.localStream <;>
      simp [GroupCall.step, GroupCall.unmountCleanup, hls] at hg <;>
      exact Or.inl hg

/-- Running any event sequence preserves the marker invariant of the
published list. -/
theorem GroupCall.run_marker (es : List GroupCall.Ev) (s : GroupCall.St)
    (h : GroupCall.allMarked s.published) : GroupCall.allMarked (GroupCall.run s es).published := by
  induction es generalizing s with
  | nil => exact h
  | cons e l ih =>
    apply ih
    intro g hg
    rcases GroupCall.step_marker s e g hg with h1 | h1
    · exact h g h1
    · exact h1

/-- C6 counterexample: the 1:1 signal handler has no marker check — a
group-marked `call-accepted` for the same conversation and recipient is
fully processed by a 1:1 caller (status flips to `connected` and an
`offer` is published). -/
theorem c6_counterexample :
    (OneToOne.deliver
        (OneToOne.run (OneToOne.init 1 2) [OneToOne.Ev.uiStartCall (some 7) true])
        ⟨7, 2, 1, SigType.callAccepted, true, false⟩).callStatus = CallStatus.connected
    ∧ (OneToOne.deliver
        (OneToOne.run (OneToOne.init 1 2) [OneToOne.Ev.uiStartCall (some 7) true])
        ⟨7, 2, 1, SigType.callAccepted, true, false⟩).published
      = [⟨2, 7, 1, SigType.callRequest, false, false⟩,
         ⟨2, 7, 1, SigType.offer, false, false⟩] := by decide

/-- C6 (amended): every signal the group coordinator publishes, over any
event sequence from a fresh session, carries `isGroupCall`, and the group
handler drops any signal without the marker; the 1:1 handler, however,
ignores the marker entirely — it behaves identically on marked and
unmarked signals for its conversation and recipient. -/
theorem c6_amended :
    (∀ (conv self : Nat) (es : List GroupCall.Ev) (g : Sig),
        g ∈ (GroupCall.run (GroupCall.init conv self) es).published → g.isGroupCall = true)
    ∧ (∀ (s : GroupCall.St) (g : Sig) (now : Nat),
        g.isGroupCall = false → GroupCall.deliver s g now = s)
    ∧ (∀ (s : OneToOne.St) (g : Sig) (b : Bool),
        OneToOne.deliver s { g with isGroupCall := b } = OneToOne.deliver s g) := by
  refine ⟨?_, ?_, ?_⟩
  · intro conv self es g hg
    exact GroupCall.run_marker es (GroupCall.init conv self) (fun x hx => absurd hx (by simp [GroupCall.init])) g hg
  · intro s g now hm
    simp [GroupCall.deliver, GroupCall.handleSignal, hm]
  · intro s g b
    obtain ⟨gs, gc, gv, gt, gm, gh⟩ := g
    rfl

/-- C6 amended witness: the single signal of a concrete group run is
marked, and a concrete unmarked signal is dropped by the group handler. -/
theorem c6_amended_witness :
    (⟨2, 7, 1, SigType.callRequest, true, false⟩ : Sig).isGroupCall = true
    ∧ GroupCall.deliver (GroupCall.init 1 2) ⟨7, 2, 1, SigType.offer, false, false⟩ 5
      = GroupCall.init 1 2 :=
  ⟨c6_amended.1 1 2 [GroupCall.Ev.uiStart [7] true]
      ⟨2, 7, 1, SigType.callRequest, true, false⟩ (by decide),
   c6_amended.2.1 (GroupCall.init 1 2) ⟨7, 2, 1, SigType.offer, false, false⟩ 5 rfl⟩

/-- C7 counterexample: on session open for an incoming group call, the
group coordinator's state is left entirely unchanged from `idle` — its
status does not become `ringing`. -/
theorem c7_counterexample :
    GroupCall.autoStartEffect (GroupCall.init 1 2) true true [7] true = GroupCall.init 1 2
    ∧ (GroupCall.init 1 2).callStatus = CallStatus.idle := by decide

/-- C7 (amended): on session open an outgoing caller auto-starts (idle to
calling, publishing `call-request`) in both coordinators without user
action; the 1:1 recipient is put in `ringing`, while the group recipient
stays in `idle` and the incoming accept/reject screen is gated on
`isIncoming` with status `idle`; neither recipient performs any connection
setup (no media, no publishes, no links) before explicit accept/reject. -/
theorem c7_amended (conv self other : Nat) (members : List Nat) (ok : Bool) :
    (OneToOne.autoStartEffect (OneToOne.init conv self) true false (some other) true).callStatus
      = CallStatus.calling
    ∧ (OneToOne.autoStartEffect (OneToOne.init conv self) true false (some other) true).published
      = [⟨self, other, conv, SigType.callRequest, false, false⟩]
    ∧ OneToOne.autoStartEffect (OneToOne.init conv self) true true (some other) ok
      = { OneToOne.init conv self with callStatus := CallStatus.ringing }
    ∧ (GroupCall.autoStartEffect (GroupCall.init conv self) true false members true).callStatus
      = CallStatus.calling
    ∧ GroupCall.autoStartEffect (GroupCall.init conv self) true true members ok
      = GroupCall.init conv self
    ∧ GroupCall.showsIncomingUI (GroupCall.init conv self) true = true := by
  refine ⟨?_, ?_, ?_, ?_, ?_, ?_⟩
  · simp [OneToOne.autoStartEffect, OneToOne.init, OneToOne.startCall,
      OneToOne.initializeMedia, OneToOne.publish1]
  · simp [OneToOne.autoStartEffect, OneToOne.init, OneToOne.startCall,
      OneToOne.initializeMedia, OneToOne.publish1]
  · simp [OneToOne.autoStartEffect, OneToOne.init]
  · simp [GroupCall.autoStartEffect, GroupCall.init, GroupCall.startGroupCall,
      GroupCall.initializeMedia, GroupCall.publishAll_spec]
  · simp [GroupCall.autoStartEffect, GroupCall.init]
  · simp [GroupCall.showsIncomingUI, GroupCall.init]

/-- C8: an `answer` with no Peer Link (or with no outstanding local
offer), and an `ice-candidate` for a sender with no Peer Link, are dropped
by both coordinators: the state is completely unchanged — status kept, no
link closed, nothing published. -/
theorem c8_unmatched_signals_dropped
    (s1 : OneToOne.St) (s2 : GroupCall.St) (g1 g2 : Sig) (now : Nat)
    (h1 : (g1.stype = SigType.answer ∧
            (s1.pc = none ∨ ∃ p, s1.pc = some p ∧ p.localOffer = false))
          ∨ (g1.stype = SigType.iceCandidate ∧ s1.pc = none))
    (h2 : g2.senderId ∉ s2.links)
    (ht2 : g2.stype = SigType.answer ∨ g2.stype = SigType.iceCandidate) :
    OneToOne.deliver s1 g1 = s1 ∧ GroupCall.deliver s2 g2 now = s2 := by
  constructor
  · rcases h1 with ⟨ht, hp⟩ | ⟨ht, hp⟩
    · rcases hp with hpn | ⟨p, hps, hpo⟩
      · simp [OneToOne.deliver, OneToOne.handleSignal, ht, hpn]
      · simp [OneToOne.deliver, OneToOne.handleSignal, ht, hps, hpo]
    · simp [OneToOne.deliver, OneToOne.handleSignal, ht, hp]
  · rcases ht2 with ht | ht <;>
      simp [GroupCall.deliver, GroupCall.handleSignal, ht, h2]

/-- C8 witness: fresh sessions with no Peer Link drop a concrete late
`answer` (1:1) and a concrete group `answer` from an unlinked sender. -/
theorem c8_unmatched_signals_dropped_witness :
    OneToOne.deliver (OneToOne.init 1 2) ⟨7, 2, 1, SigType.answer, false, false⟩
      = OneToOne.init 1 2
    ∧ GroupCall.deliver (GroupCall.init 1 2) ⟨7, 2, 1, SigType.answer, true, false⟩ 4
      = GroupCall.init 1 2 :=
  c8_unmatched_signals_dropped (OneToOne.init 1 2) (GroupCall.init 1 2)
    ⟨7, 2, 1, SigType.answer, false, false⟩ ⟨7, 2, 1, SigType.answer, true, false⟩ 4
    (Or.inl ⟨rfl, Or.inl rfl⟩) (by decide) (Or.inl rfl)

/-- C9: when media acquisition fails, start and accept paths of both
coordinators publish nothing (no `call-request`, no `call-accepted`),
create no Peer Link, and raise exactly one user-visible alert. -/
theorem c9_media_failure_aborts (s1 : OneToOne.St) (s2 : GroupCall.St)
    (o c : Nat) (ms : List Nat) (now : Nat) :
    (OneToOne.startCall s1 (some o) false).published = s1.published
    ∧ (OneToOne.startCall s1 (some o) false).alerts = s1.alerts + 1
    ∧ (OneToOne.acceptCall s1 (some c) false).published = s1.published
    ∧ (OneToOne.acceptCall s1 (some c) false).pc = s1.pc
    ∧ (OneToOne.acceptCall s1 (some c) false).alerts = s1.alerts + 1
    ∧ (GroupCall.startGroupCall s2 ms false).published = s2.published
    ∧ (GroupCall.startGroupCall s2 ms false).alerts = s2.alerts + 1
    ∧ (GroupCall.acceptCall s2 (some c) ms false now).published = s2.published
    ∧ (GroupCall.acceptCall s2 (some c) ms false now).links = s2.links
    ∧ (GroupCall.acceptCall s2 (some c) ms false now).alerts = s2.alerts + 1 :=
  ⟨rfl, rfl, rfl, rfl, rfl, rfl, rfl, rfl, rfl, rfl⟩

/-- Reduction of the group handler on a matching, marked `call-ended`. -/
theorem GroupCall.deliver_callEnded_spec (s : GroupCall.St) (gs : Nat) (gh : Bool) (now : Nat) :
    GroupCall.deliver s ⟨gs, s.selfId, s.conversationId, SigType.callEnded, true, gh⟩ now
      = (let s1 := if gs ∈ s.links then
            { s with closedLinks := s.closedLinks + 1,
                     links := s.links.filter (fun x => x != gs) }
          else s
         let s2 := { s1 with participants := s1.participants.filter (fun x => x != gs) }
         if s2.links.isEmpty then GroupCall.endCall s2 now else s2) := by
  simp [GroupCall.deliver, GroupCall.handleSignal]

/-- C10: when `call-ended` from the last linked participant arrives, the
handler empties the Peer Link map and runs the full `endCall` path over
it: no `call-ended` is published to anyone, the session ends, and a
duration chat-log message is still inserted whenever a call start time was
recorded — every connected participant logs its own duration message. -/
theorem c10_last_participant_end (s : GroupCall.St) (g : Sig) (t0 now : Nat)
    (hc : g.calleeId = s.selfId) (hv : g.conversationId = s.conversationId)
    (hm : g.isGroupCall = true) (ht : g.stype = SigType.callEnded)
    (hl : s.links = [g.senderId]) (hs : s.callStartTime = some t0) :
    (GroupCall.deliver s g now).published = s.published
    ∧ (GroupCall.deliver s g now).messages
      = s.messages ++ ["📹 Cuộc gọi nhóm - " ++ GroupCall.durationText (now - t0)]
    ∧ (GroupCall.deliver s g now).callStatus = CallStatus.ended := by
  obtain ⟨gs, gc, gv, gt, gm, gh⟩ := g
  simp only [Sig.calleeId] at hc
  simp only [Sig.conversationId] at hv
  simp only [Sig.isGroupCall] at hm
  simp only [Sig.stype] at ht
  simp only [Sig.senderId] at hl
  subst hc hv hm ht
  rw [GroupCall.deliver_callEnded_spec]
  simp [hl, GroupCall.endCall_spec, hs]

/-- C10 witness: a connected group session whose only link is participant
9, with start time 3; their `call-ended` at time 100 publishes nothing and
logs the 97-second duration. -/
theorem c10_last_participant_end_witness :
    (GroupCall.deliver lastPeerState ⟨9, 2, 1, SigType.callEnded, true, false⟩ 100).published
      = lastPeerState.published
    ∧ (GroupCall.deliver lastPeerState ⟨9, 2, 1, SigType.callEnded, true, false⟩ 100).messages
      = lastPeerState.messages ++ ["📹 Cuộc gọi nhóm - " ++ GroupCall.durationText 97] := by
  have h := c10_last_participant_end lastPeerState ⟨9, 2, 1, SigType.callEnded, true, false⟩ 3 100
    rfl rfl rfl rfl (by decide) (by decide)
  exact ⟨h.1, h.2.1⟩
